/-
Verification development for the daily profit manager
(src/legacy/daily_profit_manager.py, class DailyProfitManager).

Shallow embedding conventions:
- Money amounts, lot sizes and timestamps are exact rationals (ℚ); Python
  round(x, n) is modelled as round-half-to-even on rationals, Python int()
  as truncation toward zero.
- datetime.now() is passed in explicitly as a `Now` record carrying the
  calendar date (an integer day index), the weekday (0 = Monday .. 6 =
  Sunday, so 4 = Friday), the local hour and minute, the seconds elapsed
  since local midnight (sod) and an absolute timestamp in seconds.
- The MetaTrader5 history query `mt5.history_deals_get(...)` is an external
  effect; it is passed in as `Except String (Option (List Deal))`: an
  `Except.error` models the query (or the surrounding body) raising, `.ok
  none` models MT5 returning None, `.ok (some ds)` a list of deals.
- Logging is an external effect; where a claim depends on a log event the
  embedded operation returns a Boolean event flag.
- The reason strings returned by should_allow_trading are modelled by the
  structured type `Reason`, whose constructors carry exactly the data that
  the Python f-strings interpolate.
- Mutation of `self` is modelled by explicit state passing: each operation
  takes a `ManagerState` and returns the updated one.
-/
import Mathlib

namespace DailyProfitManager

/-- Round-half-to-even of a rational to an integer, as Python's round
    builtin behaves on exact values. -/
def halfEven (q : ℚ) : ℤ :=
  let f := ⌊q⌋
  if q - f < 1/2 then f
  else if 1/2 < q - f then f + 1
  else if f % 2 = 0 then f else f + 1

/-- Python round(x, n) on exact rationals. -/
def pyRound (q : ℚ) (n : ℕ) : ℚ :=
  ((halfEven (q * (10 : ℚ) ^ n) : ℤ) : ℚ) / (10 : ℚ) ^ n

/-- Python int() truncation toward zero on exact rationals. -/
def pyInt (q : ℚ) : ℤ := if 0 ≤ q then ⌊q⌋ else ⌈q⌉

/-- The configuration values read in __init__ (config.json fields), plus
    the constructor arguments magic_number and symbol used for deal
    filtering. -/
structure Config where
  magic_number : ℤ
  symbol : String
  daily_target_gross : ℚ
  broker_fee_per_lot : ℚ
  enable_pacing : Bool
  pacing_mode : String
  min_trade_interval_normal : ℚ
  min_trade_interval_aggressive : ℚ
  friday_close_hour : ℕ
  adaptive_threshold : ℚ
  estimated_minutes_per_trade : ℚ
deriving DecidableEq

/-- The mutable per-day state held on self. `last_trade_time` is an
    absolute timestamp in seconds (None ↦ none). `last_reset_date` is the
    integer day index of the last daily reset. -/
structure ManagerState where
  daily_target_reached : Bool
  last_reset_date : ℤ
  trades_today : ℕ
  total_fees_today : ℚ
  gross_profit_today : ℚ
  net_profit_today : ℚ
  last_trade_time : Option ℚ
deriving DecidableEq

/-- A snapshot of datetime.now(): date (day index), weekday (4 = Friday),
    hour, minute, seconds since local midnight (sod) and absolute seconds
    timestamp used for datetime subtraction. -/
structure Now where
  date : ℤ
  weekday : ℕ
  hour : ℕ
  minute : ℕ
  sod : ℚ
  seconds : ℚ
deriving DecidableEq

/-- One MT5 history deal, with the fields the manager reads: magic,
    symbol, entry (1 = OUT/close), profit and volume (lot size). -/
structure Deal where
  magic : ℤ
  symbol : String
  entry : ℤ
  profit : ℚ
  volume : ℚ
deriving DecidableEq

/-- The dictionary returned by get_daily_stats. estimated_target_eta is an
    absolute timestamp in seconds (None ↦ none). -/
structure Stats where
  trades_count : ℕ
  gross_profit : ℚ
  total_fees : ℚ
  net_profit : ℚ
  target_percentage : ℚ
  average_profit_per_trade : ℚ
  estimated_target_eta : Option ℚ
deriving DecidableEq

/-- Structured model of the reason strings returned by
    should_allow_trading; each constructor carries the data interpolated
    into the corresponding f-string. -/
inductive Reason where
  | targetReached (gross : ℚ)
  | fridayClose (hour : ℕ)
  | pacingWait (wait : ℤ) (mode : String)
  | tradingAllowed
deriving DecidableEq

/-- Result of should_allow_trading: the (bool, reason) pair plus the
    updated self state. -/
structure GatingResult where
  allowed : Bool
  reason : Reason
  state : ManagerState
deriving DecidableEq

/-- Result of get_daily_stats: the stats dict, the updated self state, and
    whether the except-branch logged an error. -/
structure StatsResult where
  stats : Stats
  state : ManagerState
  errorLogged : Bool
deriving DecidableEq

/-- Result of check_target_reached: the (bool, stats) pair, the updated
    self state, and whether the one-time TARGET REACHED log event fired on
    this call. -/
structure CTRResult where
  reached : Bool
  stats : Stats
  state : ManagerState
  logged : Bool
deriving DecidableEq

/-- The JSON snapshot written by save_state (field 'date' is the stored
    ISO date, as a day index). -/
structure SavedState where
  date : ℤ
  target_reached : Bool
  trades_today : ℕ
  gross_profit : ℚ
  total_fees : ℚ
  net_profit : ℚ
  last_trade_time : Option ℚ
deriving DecidableEq

/-- calculate_trade_fee: fee = lot_size * broker_fee_per_lot, rounded to
    2 decimal places. The Python body performs no validation. -/
def calculate_trade_fee (cfg : Config) (lot_size : ℚ) : ℚ :=
  pyRound (lot_size * cfg.broker_fee_per_lot) 2

/-- The execution outcome of a calculate_trade_fee call: the Python body
    contains no raise statement and no operation that can fail on a float
    argument, so the embedded outcome is always Except.ok. -/
def calculate_trade_fee_run (cfg : Config) (lot_size : ℚ) : Except String ℚ :=
  Except.ok (calculate_trade_fee cfg lot_size)

/-- The all-zero stats dictionary returned on empty history or on query
    failure. -/
def zero_stats : Stats :=
  { trades_count := 0, gross_profit := 0, total_fees := 0, net_profit := 0
    target_percentage := 0, average_profit_per_trade := 0
    estimated_target_eta := none }

/-- get_daily_stats: queries MT5 for today's deals, filters by magic
    number, symbol and entry == 1, sums profit and estimated fees, derives
    percentage / average / ETA, overwrites the internal running counters
    (only on the non-empty path), and returns the rounded stats dict. The
    whole body is wrapped in try/except: a failing query yields zero stats
    and an error log, never an exception to the caller. -/
def get_daily_stats (cfg : Config) (s : ManagerState) (now : Now)
    (query : Except String (Option (List Deal))) : StatsResult :=
  match query with
  | Except.error _ => ⟨zero_stats, s, true⟩
  | Except.ok none => ⟨zero_stats, s, false⟩
  | Except.ok (some deals) =>
    if deals.length = 0 then ⟨zero_stats, s, false⟩
    else
      let relevant := deals.filter fun d =>
        d.magic == cfg.magic_number && d.symbol == cfg.symbol && d.entry == 1
      if relevant.length = 0 then ⟨zero_stats, s, false⟩
      else
        let trades_count := relevant.length
        let gross_profit := (relevant.map Deal.profit).sum
        let total_fees := (relevant.map fun d => calculate_trade_fee cfg d.volume).sum
        let net_profit := gross_profit - total_fees
        let target_percentage :=
          if 0 < cfg.daily_target_gross then gross_profit / cfg.daily_target_gross * 100
          else 0
        let avg_profit :=
          if 0 < trades_count then gross_profit / (trades_count : ℚ) else 0
        let estimated_eta :=
          if 0 < avg_profit ∧ gross_profit < cfg.daily_target_gross then
            some (now.seconds +
              (cfg.daily_target_gross - gross_profit) / avg_profit *
                cfg.estimated_minutes_per_trade * 60)
          else none
        let s1 : ManagerState :=
          { s with trades_today := trades_count
                   gross_profit_today := gross_profit
                   total_fees_today := total_fees
                   net_profit_today := net_profit }
        ⟨{ trades_count := trades_count
           gross_profit := pyRound gross_profit 2
           total_fees := pyRound total_fees 2
           net_profit := pyRound net_profit 2
           target_percentage := pyRound target_percentage 1
           average_profit_per_trade := pyRound avg_profit 2
           estimated_target_eta := estimated_eta }, s1, false⟩

/-- check_target_reached: recomputes stats, compares the (rounded) gross
    profit against the gross daily target, and on a false→true transition
    of the flag logs the one-time TARGET REACHED event and latches the
    flag. -/
def check_target_reached (cfg : Config) (s : ManagerState) (now : Now)
    (query : Except String (Option (List Deal))) : CTRResult :=
  let r := get_daily_stats cfg s now query
  let target_reached : Bool := cfg.daily_target_gross ≤ r.stats.gross_profit
  if target_reached ∧ ¬ r.state.daily_target_reached then
    ⟨target_reached, r.stats, { r.state with daily_target_reached := true }, true⟩
  else
    ⟨target_reached, r.stats, r.state, false⟩

/-- reset_daily_state: midnight reset — zero all counters, clear the flag
    and the last trade time, stamp the reset date to today. -/
def reset_daily_state (now : Now) (_s : ManagerState) : ManagerState :=
  { daily_target_reached := false
    last_reset_date := now.date
    trades_today := 0
    total_fees_today := 0
    gross_profit_today := 0
    net_profit_today := 0
    last_trade_time := none }

/-- The required-interval selection inside should_allow_trading (lines
    246–266): required_interval starts at the normal interval; aggressive
    mode picks the aggressive interval, gentle the normal one, and
    adaptive recomputes stats (mutating the counters) and picks the
    aggressive interval exactly when the actual target percentage is below
    expected progress ((hour + minute/60)/24 × 100) times the adaptive
    threshold. Returns the chosen interval and the state after the branch. -/
def pacing_required_interval (cfg : Config) (s : ManagerState) (now : Now)
    (query : Except String (Option (List Deal))) : ℚ × ManagerState :=
  if cfg.pacing_mode == "aggressive" then
    (cfg.min_trade_interval_aggressive, s)
  else if cfg.pacing_mode == "gentle" then
    (cfg.min_trade_interval_normal, s)
  else if cfg.pacing_mode == "adaptive" then
    let r := get_daily_stats cfg s now query
    let hours_elapsed : ℚ := (now.hour : ℚ) + (now.minute : ℚ) / 60
    let expected_progress := hours_elapsed / 24 * 100
    let actual_progress := r.stats.target_percentage
    if actual_progress < expected_progress * cfg.adaptive_threshold then
      (cfg.min_trade_interval_aggressive, r.state)
    else
      (cfg.min_trade_interval_normal, r.state)
  else
    (cfg.min_trade_interval_normal, s)

/-- should_allow_trading: (a) midnight rollover if the date advanced;
    (b) deny if the daily target flag is set; (c) deny if Friday and the
    local hour has reached the configured close hour; (d) if pacing is
    enabled and a last trade time exists, deny when the elapsed seconds
    are below the mode-selected required interval, reporting
    int(required − elapsed) seconds to wait; (e) otherwise allow. -/
def should_allow_trading (cfg : Config) (s : ManagerState) (now : Now)
    (query : Except String (Option (List Deal))) : GatingResult :=
  let s0 := if s.last_reset_date < now.date then reset_daily_state now s else s
  if s0.daily_target_reached then
    ⟨false, Reason.targetReached s0.gross_profit_today, s0⟩
  else if now.weekday = 4 ∧ cfg.friday_close_hour ≤ now.hour then
    ⟨false, Reason.fridayClose cfg.friday_close_hour, s0⟩
  else if cfg.enable_pacing then
    match s0.last_trade_time with
    | none => ⟨true, Reason.tradingAllowed, s0⟩
    | some t =>
      let time_since_last := now.seconds - t
      let ri := pacing_required_interval cfg s0 now query
      if time_since_last < ri.1 then
        ⟨false, Reason.pacingWait (pyInt (ri.1 - time_since_last)) cfg.pacing_mode, ri.2⟩
      else
        ⟨true, Reason.tradingAllowed, ri.2⟩
  else
    ⟨true, Reason.tradingAllowed, s0⟩

/-- get_friday_trading_hours_remaining: None unless Friday, 0.0 once past
    the close hour, else hours until the close hour rounded to 1 decimal. -/
def get_friday_trading_hours_remaining (cfg : Config) (now : Now) : Option ℚ :=
  if now.weekday ≠ 4 then none
  else
    let close_sod : ℚ := (cfg.friday_close_hour : ℚ) * 3600
    if close_sod ≤ now.sod then some 0
    else some (pyRound ((close_sod - now.sod) / 3600) 1)

/-- record_trade: stamp last_trade_time to now, increment the trade count,
    add profit to gross, add the computed fee to total fees, recompute
    net = gross − fees. Pure state mutation, no I/O. -/
def record_trade (cfg : Config) (now : Now) (s : ManagerState)
    (lot_size profit : ℚ) : ManagerState :=
  let fee := calculate_trade_fee cfg lot_size
  let gross := s.gross_profit_today + profit
  let fees := s.total_fees_today + fee
  { s with last_trade_time := some now.seconds
           trades_today := s.trades_today + 1
           gross_profit_today := gross
           total_fees_today := fees
           net_profit_today := gross - fees }

/-- save_state: serialize the current counters (and the stored reset date)
    into the JSON snapshot. -/
def save_state (s : ManagerState) : SavedState :=
  { date := s.last_reset_date
    target_reached := s.daily_target_reached
    trades_today := s.trades_today
    gross_profit := s.gross_profit_today
    total_fees := s.total_fees_today
    net_profit := s.net_profit_today
    last_trade_time := s.last_trade_time }

/-- load_state: the file argument is none when the state file is missing
    or unreadable (the except branch logs and keeps the in-memory state).
    A snapshot is applied only when its stored date equals today; the
    saved last_trade_time is applied only when it is not None; the stored
    reset date is never written back. A mismatched-date snapshot leaves
    the state untouched. -/
def load_state (s : ManagerState) (file : Option SavedState) (today : ℤ) :
    ManagerState :=
  match file with
  | none => s
  | some st =>
    if st.date = today then
      let s1 : ManagerState :=
        { s with daily_target_reached := st.target_reached
                 trades_today := st.trades_today
                 gross_profit_today := st.gross_profit
                 total_fees_today := st.total_fees
                 net_profit_today := st.net_profit }
      match st.last_trade_time with
      | some t => { s1 with last_trade_time := some t }
      | none => s1
    else s

/-- should_pause_trading: delegates to check_target_reached and returns
    its boolean (threading the mutated state). -/
def should_pause_trading (cfg : Config) (s : ManagerState) (now : Now)
    (query : Except String (Option (List Deal))) : Bool × ManagerState :=
  let r := check_target_reached cfg s now query
  (r.reached, r.state)

/-- update: midnight rollover check, then persist the state when any
    trades were recorded today. The second component is the snapshot
    written to disk, if any. -/
def update (now : Now) (s : ManagerState) : ManagerState × Option SavedState :=
  let s0 := if s.last_reset_date < now.date then reset_daily_state now s else s
  if 0 < s0.trades_today then (s0, some (save_state s0))
  else (s0, none)

/-- The pace classification shown in the progress report. -/
inductive Pace where
  | onTrack
  | slightlyBehind
  | behindSchedule
deriving DecidableEq

/-- The data interpolated into the get_progress_report text: the stats
    block, elapsed whole hours and minutes of the day, the optional pace
    line, the optional Friday line and the optional ETA line. -/
structure ProgressReport where
  stats : Stats
  target : ℚ
  hours_elapsed : ℤ
  minutes_elapsed : ℤ
  pace : Option Pace
  friday_hours : Option ℚ
  eta : Option ℚ
deriving DecidableEq

/-- get_progress_report: builds the Telegram report from a fresh
    get_daily_stats call (which refreshes the counters), the elapsed time
    of day, the pace classification, the Friday hours and the ETA. -/
def get_progress_report (cfg : Config) (s : ManagerState) (now : Now)
    (query : Except String (Option (List Deal))) : ProgressReport × ManagerState :=
  let r := get_daily_stats cfg s now query
  let hours_elapsed : ℤ := ⌊now.sod / 3600⌋
  let minutes_elapsed : ℤ := ⌊(now.sod - 3600 * (hours_elapsed : ℚ)) / 60⌋
  let pace : Option Pace :=
    if 0 < r.stats.trades_count then
      let expected_progress : ℚ := (hours_elapsed : ℚ) / 24 * 100
      if expected_progress ≤ r.stats.target_percentage then some Pace.onTrack
      else if expected_progress * cfg.adaptive_threshold ≤ r.stats.target_percentage then
        some Pace.slightlyBehind
      else some Pace.behindSchedule
    else none
  (⟨r.stats, cfg.daily_target_gross, hours_elapsed, minutes_elapsed, pace,
    get_friday_trading_hours_remaining cfg now,
    r.stats.estimated_target_eta⟩, r.state)

/-- The data interpolated into the get_compact_progress one-liner. -/
structure CompactReport where
  net : ℚ
  target : ℚ
  pct : ℚ
deriving DecidableEq

/-- get_compact_progress: one-line NET / target / percentage summary from
    a fresh get_daily_stats call. -/
def get_compact_progress (cfg : Config) (s : ManagerState) (now : Now)
    (query : Except String (Option (List Deal))) : CompactReport × ManagerState :=
  let r := get_daily_stats cfg s now query
  (⟨r.stats.net_profit, cfg.daily_target_gross, r.stats.target_percentage⟩, r.state)

/-- Fold a sequence of (time, lot_size, profit) trade events through
    record_trade. -/
def apply_trades (cfg : Config) (l : List (Now × ℚ × ℚ)) (s : ManagerState) :
    ManagerState :=
  l.foldl (fun st e => record_trade cfg e.1 st e.2.1 e.2.2) s

/-! ### Concrete fixtures

Configurations, states, clock snapshots and deals used in the concrete
parts of the theorems below. The numeric values are the defaults the
source reads from config.json (target 175.0, fee 5.51 per lot, normal
interval 180 s, aggressive interval 60 s, Friday close hour 22, adaptive
threshold 0.7, 30 minutes per trade). -/

/-- Default configuration with gentle pacing enabled. -/
def cfgGentle : Config :=
  { magic_number := 7, symbol := "XAUUSD", daily_target_gross := 175
    broker_fee_per_lot := 551/100, enable_pacing := true, pacing_mode := "gentle"
    min_trade_interval_normal := 180, min_trade_interval_aggressive := 60
    friday_close_hour := 22, adaptive_threshold := 7/10
    estimated_minutes_per_trade := 30 }

/-- Default configuration with pacing disabled. -/
def cfgNoPace : Config :=
  { cfgGentle with enable_pacing := false }

/-- A fresh state on day 100: all counters zero, no last trade. -/
def sFresh : ManagerState :=
  { daily_target_reached := false, last_reset_date := 100, trades_today := 0
    total_fees_today := 0, gross_profit_today := 0, net_profit_today := 0
    last_trade_time := none }

/-- Day-100 state with one trade recorded at absolute second 1000. -/
def sTrade : ManagerState :=
  { sFresh with last_trade_time := some 1000 }

/-- Day-100 state whose target-reached flag is latched, gross 200. -/
def sFlagged : ManagerState :=
  { sFresh with daily_target_reached := true, gross_profit_today := 200 }

/-- A stale state from day 0: flag latched, three trades on the books. -/
def sStale : ManagerState :=
  { daily_target_reached := true, last_reset_date := 0, trades_today := 3
    total_fees_today := 5, gross_profit_today := 200, net_profit_today := 195
    last_trade_time := some 50 }

/-- Wednesday, day 100, 10:00, absolute second 1100 (100 s after second
    1000). -/
def nowWed100 : Now :=
  { date := 100, weekday := 2, hour := 10, minute := 0, sod := 36000, seconds := 1100 }

/-- Wednesday, day 100, 10:01:21, absolute second 1181 (181 s after second
    1000). -/
def nowWed181 : Now :=
  { date := 100, weekday := 2, hour := 10, minute := 1, sod := 36081, seconds := 1181 }

/-- Friday, day 100, local time 22:05. -/
def nowFri2205 : Now :=
  { date := 100, weekday := 4, hour := 22, minute := 5, sod := 79500, seconds := 79500 }

/-- Friday, day 100, local time 21:59. -/
def nowFri2159 : Now :=
  { date := 100, weekday := 4, hour := 21, minute := 59, sod := 79140, seconds := 79140 }

/-- Day 101 (the day after the fixtures above), 00:05. -/
def nowDay101 : Now :=
  { date := 101, weekday := 3, hour := 0, minute := 5, sod := 300, seconds := 86700 }

/-- A closing deal matching the fixture magic number and symbol, profit
    200, volume 1. -/
def dealBig : Deal :=
  { magic := 7, symbol := "XAUUSD", entry := 1, profit := 200, volume := 1 }

/-- A closing deal matching the fixture magic number and symbol, profit
    10, volume 1. -/
def dealSmall : Deal :=
  { magic := 7, symbol := "XAUUSD", entry := 1, profit := 10, volume := 1 }

/-! ### Helper lemmas -/

/-- get_daily_stats never touches the target-reached flag, the stored
    reset date or the last trade time: only the four running counters are
    overwritten (and only on the non-empty path). -/
theorem get_daily_stats_frame (cfg : Config) (s : ManagerState) (now : Now)
    (q : Except String (Option (List Deal))) :
    (get_daily_stats cfg s now q).state.daily_target_reached = s.daily_target_reached ∧
    (get_daily_stats cfg s now q).state.last_reset_date = s.last_reset_date ∧
    (get_daily_stats cfg s now q).state.last_trade_time = s.last_trade_time := by
  unfold get_daily_stats
  rcases q with e | od
  · exact ⟨rfl, rfl, rfl⟩
  · rcases od with _ | ds
    · exact ⟨rfl, rfl, rfl⟩
    · dsimp only
      split
      · exact ⟨rfl, rfl, rfl⟩
      · split
        · exact ⟨rfl, rfl, rfl⟩
        · exact ⟨rfl, rfl, rfl⟩

/-- The pacing interval selection preserves the flag, the reset date and
    the last trade time (its only side effect is the stats refresh in
    adaptive mode). -/
theorem pacing_required_interval_frame (cfg : Config) (s : ManagerState) (now : Now)
    (q : Except String (Option (List Deal))) :
    (pacing_required_interval cfg s now q).2.daily_target_reached = s.daily_target_reached ∧
    (pacing_required_interval cfg s now q).2.last_reset_date = s.last_reset_date ∧
    (pacing_required_interval cfg s now q).2.last_trade_time = s.last_trade_time := by
  unfold pacing_required_interval
  split
  · exact ⟨rfl, rfl, rfl⟩
  · split
    · exact ⟨rfl, rfl, rfl⟩
    · split
      · dsimp only
        split
        · exact get_daily_stats_frame cfg s now q
        · exact get_daily_stats_frame cfg s now q
      · exact ⟨rfl, rfl, rfl⟩

/-- The net = gross − fees invariant is preserved by any sequence of
    record_trade calls. -/
theorem apply_trades_net (cfg : Config) (l : List (Now × ℚ × ℚ)) (s : ManagerState)
    (h : s.net_profit_today = s.gross_profit_today - s.total_fees_today) :
    (apply_trades cfg l s).net_profit_today =
      (apply_trades cfg l s).gross_profit_today -
        (apply_trades cfg l s).total_fees_today := by
  induction l generalizing s with
  | nil => exact h
  | cons e tl ih => exact ih _ rfl

/-! ### Claims -/

/-- Claim C3: starting from a freshly reset state, every record_trade call
    increments the trade count by one, adds the profit to gross, adds the
    computed fee to total fees, and recomputes net, so that net = gross −
    fees holds after each call of any call sequence (exactly, in the
    rational-number model of the float arithmetic). -/
theorem C3_record_trade_net_invariant :
    (∀ (cfg : Config) (now : Now) (s : ManagerState) (lot profit : ℚ),
      (record_trade cfg now s lot profit).trades_today = s.trades_today + 1 ∧
      (record_trade cfg now s lot profit).gross_profit_today =
        s.gross_profit_today + profit ∧
      (record_trade cfg now s lot profit).total_fees_today =
        s.total_fees_today + calculate_trade_fee cfg lot ∧
      (record_trade cfg now s lot profit).net_profit_today =
        (record_trade cfg now s lot profit).gross_profit_today -
          (record_trade cfg now s lot profit).total_fees_today) ∧
    (∀ (cfg : Config) (l : List (Now × ℚ × ℚ)) (now0 : Now) (s0 : ManagerState),
      (apply_trades cfg l (reset_daily_state now0 s0)).net_profit_today =
        (apply_trades cfg l (reset_daily_state now0 s0)).gross_profit_today -
          (apply_trades cfg l (reset_daily_state now0 s0)).total_fees_today) :=
  ⟨fun _ _ _ _ _ => ⟨rfl, rfl, rfl, rfl⟩,
   fun cfg l now0 s0 =>
     apply_trades_net cfg l (reset_daily_state now0 s0) (by norm_num [reset_daily_state])⟩

/-- Claim C5 counterexample: calculate_trade_fee performs no validation at
    all — called on the negative lot size −1 it does not fail, it returns
    round(−1 × 5.51, 2) = −5.51. -/
theorem C5_counterexample :
    calculate_trade_fee_run cfgGentle (-1) = Except.ok (-(551/100)) := by
  simp +decide only [calculate_trade_fee_run, calculate_trade_fee, pyRound, halfEven,
    cfgGentle]
  norm_num

/-- Claim C5 (amended): for every lot size L — negative lot sizes
    included — calculate_trade_fee returns round(L × brokerFeePerLot, 2)
    and never raises; concretely fee(0.70) = 3.86 and fee(−2) = −11.02
    with the default 5.51 rate. -/
theorem C5_fee_formula :
    (∀ (cfg : Config) (L : ℚ),
      calculate_trade_fee_run cfg L =
        Except.ok (pyRound (L * cfg.broker_fee_per_lot) 2)) ∧
    calculate_trade_fee cfgGentle (7/10) = 386/100 ∧
    calculate_trade_fee_run cfgGentle (-2) = Except.ok (-(1102/100)) := by
  refine ⟨fun _ _ => rfl, ?_, ?_⟩
  · simp +decide only [calculate_trade_fee, pyRound, halfEven, cfgGentle]
    norm_num
  · simp +decide only [calculate_trade_fee_run, calculate_trade_fee, pyRound, halfEven,
      cfgGentle]
    norm_num

/-- Claim C6: when the MT5 trade-history query raises, get_daily_stats
    returns the all-zero stats dictionary (zero trades, gross, fees, net,
    percentage and average, no ETA), logs the error, leaves the state
    untouched, and — being a total function of the query outcome — lets no
    exception escape to the caller. -/
theorem C6_stats_error_degrades (cfg : Config) (s : ManagerState) (now : Now)
    (e : String) :
    (get_daily_stats cfg s now (Except.error e)).stats.trades_count = 0 ∧
    (get_daily_stats cfg s now (Except.error e)).stats.gross_profit = 0 ∧
    (get_daily_stats cfg s now (Except.error e)).stats.total_fees = 0 ∧
    (get_daily_stats cfg s now (Except.error e)).stats.net_profit = 0 ∧
    (get_daily_stats cfg s now (Except.error e)).stats.target_percentage = 0 ∧
    (get_daily_stats cfg s now (Except.error e)).stats.average_profit_per_trade = 0 ∧
    (get_daily_stats cfg s now (Except.error e)).stats.estimated_target_eta = none ∧
    (get_daily_stats cfg s now (Except.error e)).errorLogged = true ∧
    (get_daily_stats cfg s now (Except.error e)).state = s :=
  ⟨rfl, rfl, rfl, rfl, rfl, rfl, rfl, rfl, rfl⟩

/-- The flag in the state returned by should_allow_trading is exactly the
    flag after the (possible) midnight rollover: the gate reads the flag
    but never writes it. -/
theorem should_allow_trading_flag (cfg : Config) (s : ManagerState) (now : Now)
    (q : Except String (Option (List Deal))) :
    (should_allow_trading cfg s now q).state.daily_target_reached =
      (if s.last_reset_date < now.date then reset_daily_state now s
       else s).daily_target_reached := by
  unfold should_allow_trading
  dsimp only
  split
  · split
    · rfl
    · split
      · rfl
      · split
        · split
          · rfl
          · split
            · exact (pacing_required_interval_frame cfg _ now q).1
            · exact (pacing_required_interval_frame cfg _ now q).1
        · rfl
  · split
    · rfl
    · split
      · rfl
      · split
        · split
          · rfl
          · split
            · exact (pacing_required_interval_frame cfg _ now q).1
            · exact (pacing_required_interval_frame cfg _ now q).1
        · rfl

/-- Under a pending midnight rollover, should_allow_trading resets the
    daily state first and then either applies the Friday gate or allows;
    in both cases the resulting state is exactly the reset state. -/
theorem should_allow_trading_rollover (cfg : Config) (s : ManagerState) (now : Now)
    (q : Except String (Option (List Deal))) (h : s.last_reset_date < now.date) :
    should_allow_trading cfg s now q =
      (if now.weekday = 4 ∧ cfg.friday_close_hour ≤ now.hour then
        ⟨false, Reason.fridayClose cfg.friday_close_hour, reset_daily_state now s⟩
      else ⟨true, Reason.tradingAllowed, reset_daily_state now s⟩) := by
  unfold should_allow_trading
  rw [if_pos h, if_neg (by simp [reset_daily_state])]
  split
  · rfl
  · split
    · rfl
    · rfl

/-- Claim C7: saving and then loading on the same day reproduces the
    in-memory counters exactly, and loading a snapshot whose stored date
    is not today leaves the whole in-memory state untouched. -/
theorem C7_state_roundtrip :
    (∀ (s : ManagerState) (today : ℤ), s.last_reset_date = today →
      load_state s (some (save_state s)) today = s) ∧
    (∀ (s : ManagerState) (st : SavedState) (today : ℤ), st.date ≠ today →
      load_state s (some st) today = s) := by
  constructor
  · intro s today h
    unfold load_state save_state
    dsimp only
    rw [if_pos h]
    cases s with
    | mk flag date tr fees gross net ltt =>
      cases ltt <;> rfl
  · intro s st today h
    unfold load_state
    dsimp only
    rw [if_neg h]

/-- Claim C7 witness: a same-day round trip on the concrete day-0 state
    reproduces it, and loading that day-0 snapshot on day 100 leaves the
    fresh state untouched. -/
theorem C7_state_roundtrip_witness :
    load_state sStale (some (save_state sStale)) 0 = sStale ∧
    load_state sFresh (some (save_state sStale)) 100 = sFresh :=
  ⟨C7_state_roundtrip.1 sStale 0 rfl,
   C7_state_roundtrip.2 sFresh (save_state sStale) 100 (by decide)⟩

/-- Claim C10: the target-reached flag is written true only by
    check_target_reached: record_trade leaves it untouched,
    should_allow_trading never sets it (a flag that is true afterwards was
    true before), check_target_reached does latch it once the queried
    gross profit meets the target, and after a record_trade call that
    lifts the in-memory gross to or above the target,
    should_allow_trading still allows absent the other denial conditions
    (flag unset, no rollover, not in the Friday window, pacing disabled or
    satisfied). -/
theorem C10_flag_set_only_by_check :
    (∀ (cfg : Config) (now : Now) (s : ManagerState) (lot profit : ℚ),
      (record_trade cfg now s lot profit).daily_target_reached =
        s.daily_target_reached) ∧
    (∀ (cfg : Config) (s : ManagerState) (now : Now)
        (q : Except String (Option (List Deal))),
      (should_allow_trading cfg s now q).state.daily_target_reached = true →
      s.daily_target_reached = true) ∧
    (∀ (cfg : Config) (s : ManagerState) (now : Now)
        (q : Except String (Option (List Deal))),
      cfg.daily_target_gross ≤ (get_daily_stats cfg s now q).stats.gross_profit →
      (check_target_reached cfg s now q).state.daily_target_reached = true) ∧
    (∀ (cfg : Config) (s : ManagerState) (now now2 : Now)
        (q : Except String (Option (List Deal))) (lot profit : ℚ),
      s.daily_target_reached = false →
      now2.date ≤ s.last_reset_date →
      ¬(now2.weekday = 4 ∧ cfg.friday_close_hour ≤ now2.hour) →
      cfg.daily_target_gross ≤ (record_trade cfg now s lot profit).gross_profit_today →
      (cfg.enable_pacing = false ∨
        (pacing_required_interval cfg (record_trade cfg now s lot profit) now2 q).1 ≤
          now2.seconds - now.seconds) →
      (should_allow_trading cfg (record_trade cfg now s lot profit) now2 q).allowed =
        true) := by
  refine ⟨fun _ _ _ _ _ => rfl, ?_, ?_, ?_⟩
  · intro cfg s now q h
    rw [should_allow_trading_flag] at h
    by_cases hr : s.last_reset_date < now.date
    · rw [if_pos hr] at h
      simp [reset_daily_state] at h
    · rwa [if_neg hr] at h
  · intro cfg s now q h
    unfold check_target_reached
    dsimp only
    by_cases hf : (get_daily_stats cfg s now q).state.daily_target_reached = true
    · rw [if_neg (fun hc => hc.2 hf)]
      exact hf
    · rw [if_pos ⟨decide_eq_true h, hf⟩]
  · intro cfg s now now2 q lot profit hflag hdate hfri _hgross hpace
    unfold should_allow_trading
    rw [if_neg (not_lt.mpr (by simpa [record_trade] using hdate))]
    rw [if_neg (by simpa [record_trade] using hflag), if_neg hfri]
    rcases hpace with hp | hp
    · rw [if_neg (by simp [hp])]
    · by_cases he : cfg.enable_pacing = true
      · rw [if_pos he]
        have hltt : (record_trade cfg now s lot profit).last_trade_time =
            some now.seconds := rfl
        rw [hltt]
        dsimp only
        rw [if_neg (not_lt.mpr hp)]
      · rw [if_neg he]

/-- Claim C10 witness: on day 100, after recording a 200-profit trade on
    the fresh state (gross 200 ≥ target 175) with pacing disabled, the
    gate still allows because the flag was never set. -/
theorem C10_flag_set_only_by_check_witness :
    (should_allow_trading cfgNoPace (record_trade cfgNoPace nowWed100 sFresh 1 200)
      nowWed181 (Except.ok none)).allowed = true :=
  C10_flag_set_only_by_check.2.2.2 cfgNoPace sFresh nowWed100 nowWed181
    (Except.ok none) 1 200 rfl (by decide) (by decide)
    (by simp +decide only [record_trade, sFresh, cfgNoPace, cfgGentle]; norm_num)
    (Or.inl rfl)

/-- check_target_reached never touches the stored reset date or the last
    trade time. -/
theorem check_target_reached_frame (cfg : Config) (s : ManagerState) (now : Now)
    (q : Except String (Option (List Deal))) :
    (check_target_reached cfg s now q).state.last_reset_date = s.last_reset_date ∧
    (check_target_reached cfg s now q).state.last_trade_time = s.last_trade_time := by
  unfold check_target_reached
  dsimp only
  split
  · exact ⟨(get_daily_stats_frame cfg s now q).2.1, (get_daily_stats_frame cfg s now q).2.2⟩
  · exact ⟨(get_daily_stats_frame cfg s now q).2.1, (get_daily_stats_frame cfg s now q).2.2⟩

/-- Once the flag is already latched, check_target_reached never fires the
    TARGET REACHED log event again. -/
theorem check_target_reached_no_relatch (cfg : Config) (s : ManagerState) (now : Now)
    (q : Except String (Option (List Deal)))
    (h : s.daily_target_reached = true) :
    (check_target_reached cfg s now q).logged = false := by
  unfold check_target_reached
  dsimp only
  rw [if_neg (fun hc => hc.2 (by rw [(get_daily_stats_frame cfg s now q).1]; exact h))]

/-- With the flag latched and no rollover pending, should_allow_trading
    denies with the target-reached reason and leaves the state unchanged. -/
theorem should_allow_trading_flagged (cfg : Config) (s : ManagerState) (now : Now)
    (q : Except String (Option (List Deal)))
    (hf : s.daily_target_reached = true) (hd : now.date ≤ s.last_reset_date) :
    should_allow_trading cfg s now q =
      ⟨false, Reason.targetReached s.gross_profit_today, s⟩ := by
  unfold should_allow_trading
  rw [if_neg (not_lt.mpr hd), if_pos hf]

/-- Claim C2: when the queried gross profit meets the daily target and the
    flag is not yet set, check_target_reached returns true, fires the
    TARGET REACHED log event on exactly this false→true transition, and
    latches the flag; afterwards no later check_target_reached call fires
    the event again, every should_allow_trading call before the next date
    rollover denies with the target-reached reason (leaving the state
    unchanged, so this persists), and a rollover clears the flag again. -/
theorem C2_target_latch (cfg : Config) (s : ManagerState) (now : Now)
    (q : Except String (Option (List Deal)))
    (hflag : s.daily_target_reached = false)
    (hgross : cfg.daily_target_gross ≤ (get_daily_stats cfg s now q).stats.gross_profit) :
    (check_target_reached cfg s now q).reached = true ∧
    (check_target_reached cfg s now q).logged = true ∧
    (check_target_reached cfg s now q).state.daily_target_reached = true ∧
    (∀ (now2 : Now) (q2 : Except String (Option (List Deal))),
      (check_target_reached cfg (check_target_reached cfg s now q).state now2 q2).logged =
        false) ∧
    (∀ (now3 : Now) (q3 : Except String (Option (List Deal))),
      now3.date ≤ (check_target_reached cfg s now q).state.last_reset_date →
      should_allow_trading cfg (check_target_reached cfg s now q).state now3 q3 =
        ⟨false,
         Reason.targetReached (check_target_reached cfg s now q).state.gross_profit_today,
         (check_target_reached cfg s now q).state⟩) ∧
    (∀ (now4 : Now) (q4 : Except String (Option (List Deal))),
      (check_target_reached cfg s now q).state.last_reset_date < now4.date →
      (should_allow_trading cfg (check_target_reached cfg s now q).state now4
          q4).state.daily_target_reached = false) := by
  have hf : (get_daily_stats cfg s now q).state.daily_target_reached = false := by
    rw [(get_daily_stats_frame cfg s now q).1]; exact hflag
  have hctr : check_target_reached cfg s now q =
      ⟨true, (get_daily_stats cfg s now q).stats,
       { (get_daily_stats cfg s now q).state with daily_target_reached := true }, true⟩ := by
    unfold check_target_reached
    dsimp only
    rw [if_pos ⟨decide_eq_true hgross, by simp [hf]⟩, decide_eq_true hgross]
  refine ⟨by rw [hctr], by rw [hctr], by rw [hctr], ?_, ?_, ?_⟩
  · intro now2 q2
    exact check_target_reached_no_relatch cfg _ now2 q2 (by rw [hctr])
  · intro now3 q3 h3
    exact should_allow_trading_flagged cfg _ now3 q3 (by rw [hctr]) h3
  · intro now4 q4 h4
    rw [should_allow_trading_flag, if_pos h4]
    rfl

/-- Claim C2 witness: on day 100 a single 200-profit closing deal lifts
    the queried gross to 200 ≥ 175; check_target_reached reports true with
    the log event fired, and the subsequent same-day should_allow_trading
    call denies with the target-reached reason. -/
theorem C2_target_latch_witness :
    (check_target_reached cfgNoPace sFresh nowWed100
      (Except.ok (some [dealBig]))).reached = true ∧
    (check_target_reached cfgNoPace sFresh nowWed100
      (Except.ok (some [dealBig]))).logged = true ∧
    should_allow_trading cfgNoPace
        (check_target_reached cfgNoPace sFresh nowWed100
          (Except.ok (some [dealBig]))).state nowWed181 (Except.ok none) =
      ⟨false,
       Reason.targetReached
         (check_target_reached cfgNoPace sFresh nowWed100
           (Except.ok (some [dealBig]))).state.gross_profit_today,
       (check_target_reached cfgNoPace sFresh nowWed100
         (Except.ok (some [dealBig]))).state⟩ := by
  have hgross : cfgNoPace.daily_target_gross ≤
      (get_daily_stats cfgNoPace sFresh nowWed100
        (Except.ok (some [dealBig]))).stats.gross_profit := by
    simp +decide [get_daily_stats, dealBig, sFresh, cfgNoPace, cfgGentle,
      calculate_trade_fee, pyRound, halfEven, zero_stats]
    norm_num
  have h := C2_target_latch cfgNoPace sFresh nowWed100
    (Except.ok (some [dealBig])) rfl hgross
  refine ⟨h.1, h.2.1, h.2.2.2.2.1 nowWed181 (Except.ok none) ?_⟩
  rw [(check_target_reached_frame cfgNoPace sFresh nowWed100
    (Except.ok (some [dealBig]))).1]
  decide

/-- Claim C9 counterexample: the progress reports are not mutation-free.
    On the fresh day-100 state, one matching 10-profit deal in the history
    makes get_compact_progress overwrite the counters: the trade count
    goes 0 → 1 and the gross 0 → 10 (via its get_daily_stats call). -/
theorem C9_counterexample :
    (get_compact_progress cfgGentle sFresh nowWed100
      (Except.ok (some [dealSmall]))).2.gross_profit_today = 10 ∧
    (get_compact_progress cfgGentle sFresh nowWed100
      (Except.ok (some [dealSmall]))).2.trades_today = 1 ∧
    sFresh.gross_profit_today = 0 ∧ sFresh.trades_today = 0 := by
  refine ⟨?_, ?_, rfl, rfl⟩ <;>
    · simp +decide [get_compact_progress, get_daily_stats, dealSmall, sFresh,
        cfgGentle, calculate_trade_fee, pyRound, halfEven, zero_stats]

/-- Claim C9 (amended): get_progress_report and get_compact_progress have
    no state effect beyond the counter refresh performed by their
    get_daily_stats call: the post-state is exactly the get_daily_stats
    post-state, which keeps the target-reached flag, the stored reset date
    and the last trade time unchanged (and, on a failing or empty query,
    the whole state unchanged); the report content itself is pure
    formatting over the stats. -/
theorem C9_reports_frame (cfg : Config) (s : ManagerState) (now : Now)
    (q : Except String (Option (List Deal))) :
    (get_progress_report cfg s now q).2 = (get_daily_stats cfg s now q).state ∧
    (get_compact_progress cfg s now q).2 = (get_daily_stats cfg s now q).state ∧
    (get_daily_stats cfg s now q).state.daily_target_reached =
      s.daily_target_reached ∧
    (get_daily_stats cfg s now q).state.last_reset_date = s.last_reset_date ∧
    (get_daily_stats cfg s now q).state.last_trade_time = s.last_trade_time ∧
    (∀ e : String, (get_progress_report cfg s now (Except.error e)).2 = s) ∧
    (get_progress_report cfg s now (Except.ok none)).2 = s ∧
    (∀ e : String, (get_compact_progress cfg s now (Except.error e)).2 = s) ∧
    (get_compact_progress cfg s now (Except.ok none)).2 = s :=
  ⟨rfl, rfl, (get_daily_stats_frame cfg s now q).1,
   (get_daily_stats_frame cfg s now q).2.1, (get_daily_stats_frame cfg s now q).2.2,
   fun _ => rfl, rfl, fun _ => rfl, rfl⟩

/-- Claim C8 counterexample: get_daily_stats, check_target_reached and the
    progress reports perform no midnight rollover. On day 101, with a
    stale day-0 state (flag latched, three trades on the books), each of
    them leaves the stale flag, counters and reset date in place instead
    of resetting them first. -/
theorem C8_counterexample :
    sStale.last_reset_date < nowDay101.date ∧
    (get_daily_stats cfgGentle sStale nowDay101 (Except.ok none)).state.trades_today
      = 3 ∧
    (get_daily_stats cfgGentle sStale nowDay101
      (Except.ok none)).state.daily_target_reached = true ∧
    (get_daily_stats cfgGentle sStale nowDay101 (Except.ok none)).state.last_reset_date
      = 0 ∧
    (check_target_reached cfgGentle sStale nowDay101
      (Except.ok none)).state.last_reset_date = 0 ∧
    (get_progress_report cfgGentle sStale nowDay101 (Except.ok none)).2 = sStale := by
  refine ⟨by decide, rfl, rfl, rfl, ?_, rfl⟩
  rw [(check_target_reached_frame cfgGentle sStale nowDay101 (Except.ok none)).1]
  rfl

/-- Claim C8 (amended): only should_allow_trading and update perform the
    midnight rollover: when the wall-clock date has advanced past the
    stored reset date they reset the daily state (zeroed counters, cleared
    flag and last-trade time, reset date stamped to today) before
    producing their result — the gate's resulting state is exactly the
    reset state, and update resets and then skips the save because the
    trade count is zero again. get_daily_stats, check_target_reached and
    the progress reports never roll the date over: get_daily_stats and the
    reports leave the stored reset date, the flag and the last trade time
    untouched, and check_target_reached leaves the stored reset date and
    the last trade time untouched (it may still latch the flag
    false→true on target attainment, but never resets stale-day state). -/
theorem C8_rollover_only_in_gate_and_update :
    (∀ (cfg : Config) (s : ManagerState) (now : Now)
        (q : Except String (Option (List Deal))),
      s.last_reset_date < now.date →
      (should_allow_trading cfg s now q).state = reset_daily_state now s ∧
      (update now s).1 = reset_daily_state now s ∧
      (update now s).2 = none) ∧
    (∀ (cfg : Config) (s : ManagerState) (now : Now)
        (q : Except String (Option (List Deal))),
      (get_daily_stats cfg s now q).state.last_reset_date = s.last_reset_date ∧
      (get_daily_stats cfg s now q).state.daily_target_reached =
        s.daily_target_reached ∧
      (get_daily_stats cfg s now q).state.last_trade_time = s.last_trade_time ∧
      (check_target_reached cfg s now q).state.last_reset_date = s.last_reset_date ∧
      (check_target_reached cfg s now q).state.last_trade_time = s.last_trade_time ∧
      (get_progress_report cfg s now q).2.last_reset_date = s.last_reset_date ∧
      (get_compact_progress cfg s now q).2.last_reset_date = s.last_reset_date) := by
  constructor
  · intro cfg s now q h
    refine ⟨?_, ?_, ?_⟩
    · rw [should_allow_trading_rollover cfg s now q h]
      split
      · rfl
      · rfl
    · unfold update
      rw [if_pos h]
      dsimp only
      rw [if_neg (by simp [reset_daily_state])]
    · unfold update
      rw [if_pos h]
      dsimp only
      rw [if_neg (by simp [reset_daily_state])]
  · intro cfg s now q
    exact ⟨(get_daily_stats_frame cfg s now q).2.1,
           (get_daily_stats_frame cfg s now q).1,
           (get_daily_stats_frame cfg s now q).2.2,
           (check_target_reached_frame cfg s now q).1,
           (check_target_reached_frame cfg s now q).2,
           (get_daily_stats_frame cfg s now q).2.1,
           (get_daily_stats_frame cfg s now q).2.1⟩

/-- Claim C8 witness: on day 101 the gate and update do reset the stale
    day-0 state before producing their result. -/
theorem C8_rollover_witness :
    (should_allow_trading cfgGentle sStale nowDay101 (Except.ok none)).state =
      reset_daily_state nowDay101 sStale ∧
    (update nowDay101 sStale).1 = reset_daily_state nowDay101 sStale :=
  ⟨(C8_rollover_only_in_gate_and_update.1 cfgGentle sStale nowDay101 (Except.ok none)
     (by decide)).1,
   (C8_rollover_only_in_gate_and_update.1 cfgGentle sStale nowDay101 (Except.ok none)
     (by decide)).2.1⟩

/-- Claim C1: should_allow_trading evaluates its gates in priority order:
    (a) with a pending date rollover the decision equals the decision on
    the freshly reset state; with no rollover pending, (b) a latched
    target flag denies with the target-reached reason regardless of the
    other conditions, (c) otherwise Friday at or past the close hour
    denies with the Friday reason, (d) otherwise, with pacing enabled and
    a last trade recorded, the elapsed-versus-required comparison decides,
    and (e) in all remaining cases (pacing disabled or no last trade) it
    allows. Concretely, with fridayCloseHour = 22 the gate denies with the
    Friday reason at Friday 22:05 and allows at Friday 21:59. -/
theorem C1_gating_priority (cfg : Config) (s : ManagerState) (now : Now)
    (q : Except String (Option (List Deal))) :
    ((s.last_reset_date < now.date →
      should_allow_trading cfg s now q =
        should_allow_trading cfg (reset_daily_state now s) now q) ∧
     (now.date ≤ s.last_reset_date →
      ((s.daily_target_reached = true →
        should_allow_trading cfg s now q =
          ⟨false, Reason.targetReached s.gross_profit_today, s⟩) ∧
       (s.daily_target_reached = false →
        ((now.weekday = 4 ∧ cfg.friday_close_hour ≤ now.hour →
          should_allow_trading cfg s now q =
            ⟨false, Reason.fridayClose cfg.friday_close_hour, s⟩) ∧
         (¬(now.weekday = 4 ∧ cfg.friday_close_hour ≤ now.hour) →
          ((cfg.enable_pacing = false →
            should_allow_trading cfg s now q = ⟨true, Reason.tradingAllowed, s⟩) ∧
           (s.last_trade_time = none →
            should_allow_trading cfg s now q = ⟨true, Reason.tradingAllowed, s⟩) ∧
           (∀ t : ℚ, cfg.enable_pacing = true → s.last_trade_time = some t →
            should_allow_trading cfg s now q =
              if now.seconds - t < (pacing_required_interval cfg s now q).1 then
                ⟨false,
                 Reason.pacingWait
                   (pyInt ((pacing_required_interval cfg s now q).1 -
                     (now.seconds - t)))
                   cfg.pacing_mode,
                 (pacing_required_interval cfg s now q).2⟩
              else
                ⟨true, Reason.tradingAllowed,
                 (pacing_required_interval cfg s now q).2⟩)))))))) ∧
    should_allow_trading cfgNoPace sFresh nowFri2205 (Except.ok none) =
      ⟨false, Reason.fridayClose 22, sFresh⟩ ∧
    should_allow_trading cfgNoPace sFresh nowFri2159 (Except.ok none) =
      ⟨true, Reason.tradingAllowed, sFresh⟩ := by
  refine ⟨⟨?_, ?_⟩, ?_, ?_⟩
  · intro h
    rw [should_allow_trading_rollover cfg s now q h]
    unfold should_allow_trading
    rw [if_neg (show ¬(reset_daily_state now s).last_reset_date < now.date by
          simp [reset_daily_state]),
        if_neg (show ¬(reset_daily_state now s).daily_target_reached = true by
          simp [reset_daily_state])]
    split
    · rfl
    · split
      · rfl
      · rfl
  · intro hd
    refine ⟨fun hf => should_allow_trading_flagged cfg s now q hf hd, fun hflag => ⟨?_, ?_⟩⟩
    · intro hfri
      unfold should_allow_trading
      rw [if_neg (not_lt.mpr hd), if_neg (by simp [hflag]), if_pos hfri]
    · intro hnf
      refine ⟨?_, ?_, ?_⟩
      · intro hp
        unfold should_allow_trading
        rw [if_neg (not_lt.mpr hd), if_neg (by simp [hflag]), if_neg hnf,
            if_neg (by simp [hp])]
      · intro hltt
        unfold should_allow_trading
        rw [if_neg (not_lt.mpr hd), if_neg (by simp [hflag]), if_neg hnf]
        by_cases he : cfg.enable_pacing = true
        · rw [if_pos he, hltt]
        · rw [if_neg he]
      · intro t he hltt
        unfold should_allow_trading
        rw [if_neg (not_lt.mpr hd), if_neg (by simp [hflag]), if_neg hnf,
            if_pos he, hltt]
  · simp +decide only [should_allow_trading, reset_daily_state, cfgNoPace, cfgGentle,
      sFresh, nowFri2205]
  · simp +decide only [should_allow_trading, reset_daily_state, cfgNoPace, cfgGentle,
      sFresh, nowFri2159]

/-- Claim C1 witness: with the flag latched on the same day, the gate
    denies with the target-reached reason carrying the running gross. -/
theorem C1_gating_priority_witness :
    should_allow_trading cfgNoPace sFlagged nowWed100 (Except.ok none) =
      ⟨false, Reason.targetReached sFlagged.gross_profit_today, sFlagged⟩ :=
  ((C1_gating_priority cfgNoPace sFlagged nowWed100 (Except.ok none)).1.2
    (by decide)).1 rfl

/-- Claim C4: at the pacing check (pacing enabled, a last trade exists, no
    earlier denial), the required interval is the aggressive one in
    aggressive mode, the normal one in gentle mode, and in adaptive mode
    the aggressive one exactly when the queried target percentage is below
    (hoursElapsed/24)·100 · adaptiveThreshold, else the normal one; the
    gate denies with int(required − elapsed) wait seconds when elapsed <
    required and allows when elapsed ≥ required. Concretely in gentle mode
    with a 180 s normal interval and a trade at second 1000, the call at
    T+100 denies with 80 s to wait and the call at T+181 allows. -/
theorem C4_pacing_interval (cfg : Config) (s : ManagerState) (now : Now)
    (q : Except String (Option (List Deal))) (t : ℚ)
    (hflag : s.daily_target_reached = false)
    (hd : now.date ≤ s.last_reset_date)
    (hnf : ¬(now.weekday = 4 ∧ cfg.friday_close_hour ≤ now.hour))
    (he : cfg.enable_pacing = true)
    (hltt : s.last_trade_time = some t) :
    ((cfg.pacing_mode = "aggressive" →
      (pacing_required_interval cfg s now q).1 = cfg.min_trade_interval_aggressive) ∧
     (cfg.pacing_mode = "gentle" →
      (pacing_required_interval cfg s now q).1 = cfg.min_trade_interval_normal) ∧
     (cfg.pacing_mode = "adaptive" →
      (pacing_required_interval cfg s now q).1 =
        (if (get_daily_stats cfg s now q).stats.target_percentage <
            ((now.hour : ℚ) + (now.minute : ℚ) / 60) / 24 * 100 * cfg.adaptive_threshold
         then cfg.min_trade_interval_aggressive
         else cfg.min_trade_interval_normal)) ∧
     (now.seconds - t < (pacing_required_interval cfg s now q).1 →
      should_allow_trading cfg s now q =
        ⟨false,
         Reason.pacingWait
           (pyInt ((pacing_required_interval cfg s now q).1 - (now.seconds - t)))
           cfg.pacing_mode,
         (pacing_required_interval cfg s now q).2⟩) ∧
     ((pacing_required_interval cfg s now q).1 ≤ now.seconds - t →
      should_allow_trading cfg s now q =
        ⟨true, Reason.tradingAllowed, (pacing_required_interval cfg s now q).2⟩)) ∧
    should_allow_trading cfgGentle sTrade nowWed100 (Except.ok none) =
      ⟨false, Reason.pacingWait 80 "gentle", sTrade⟩ ∧
    should_allow_trading cfgGentle sTrade nowWed181 (Except.ok none) =
      ⟨true, Reason.tradingAllowed, sTrade⟩ := by
  refine ⟨⟨?_, ?_, ?_, ?_, ?_⟩, ?_, ?_⟩
  · intro hm
    simp +decide [pacing_required_interval, hm]
  · intro hm
    simp +decide [pacing_required_interval, hm]
  · intro hm
    simp +decide [pacing_required_interval, hm]
    split
    · rfl
    · rfl
  · intro hlt
    unfold should_allow_trading
    rw [if_neg (not_lt.mpr hd), if_neg (by simp [hflag]), if_neg hnf, if_pos he,
        hltt]
    dsimp only
    rw [if_pos hlt]
  · intro hge
    unfold should_allow_trading
    rw [if_neg (not_lt.mpr hd), if_neg (by simp [hflag]), if_neg hnf, if_pos he,
        hltt]
    dsimp only
    rw [if_neg (not_lt.mpr hge)]
  · simp +decide only [should_allow_trading, pacing_required_interval, pyInt,
      halfEven, cfgGentle, sTrade, sFresh, nowWed100]
    norm_num
  · simp +decide only [should_allow_trading, pacing_required_interval, pyInt,
      halfEven, cfgGentle, sTrade, sFresh, nowWed181]
    norm_num

/-- Claim C4 witness: the gentle-mode fixture satisfies the pacing-gate
    hypotheses; at T+100 the gate denies, at T+181 it allows. -/
theorem C4_pacing_interval_witness :
    (should_allow_trading cfgGentle sTrade nowWed100 (Except.ok none)).allowed =
      false ∧
    (should_allow_trading cfgGentle sTrade nowWed181 (Except.ok none)).allowed =
      true := by
  have h := C4_pacing_interval cfgGentle sTrade nowWed100 (Except.ok none) 1000
    rfl (by decide) (by decide) rfl rfl
  have h' := C4_pacing_interval cfgGentle sTrade nowWed181 (Except.ok none) 1000
    rfl (by decide) (by decide) rfl rfl
  constructor
  · rw [h.1.2.2.2.1 (by
      simp +decide only [pacing_required_interval, cfgGentle, sTrade, sFresh, nowWed100]
      norm_num)]
  · rw [h'.1.2.2.2.2 (by
      simp +decide only [pacing_required_interval, cfgGentle, sTrade, sFresh, nowWed181]
      norm_num)]

end DailyProfitManager
